import Mathlib

/-!
# Verification of the trading-signals-mtf multi-timeframe signal pipeline

Shallow embedding of the repository's core analysis modules
(`strategy.js`, `multiTimeframe.js`, `liquiditySweep.js`, `mtfScanner.js`,
`errors.js`) over exact rationals, together with theorems settling the
frozen specification claims.  JavaScript numbers are modelled as `ℚ`,
JS strings as `String`, JS `null`/`undefined`-able fields as `Option`,
and the `-1` index sentinels of the source as `Int`.
-/

namespace TSMTF

/-- A price candle, `{timestamp, open, high, low, close, volume}` from §3 of
the spec.  The JS field `open` is rendered `open_` (Lean keyword). -/
structure Kline where
  timestamp : Int
  open_ : ℚ
  high : ℚ
  low : ℚ
  close : ℚ
  volume : ℚ
deriving Repr, DecidableEq

/-- Default candle used for (never-taken in our inputs) out-of-range list
accesses, mirroring that the JS code never actually reads out of range on
the paths we evaluate. -/
def defKline : Kline := ⟨0, 0, 0, 0, 0, 0⟩

/-- Indexed access `klines[i]` with the default candle. -/
def kget (ks : List Kline) (i : ℕ) : Kline := ks.getD i defKline

/-- `klines[klines.length - 1]`. -/
def klast (ks : List Kline) : Kline := ks.getLastD defKline

/-- `arr.slice(-n)`: the last `n` elements. -/
def takeLast (ks : List α) (n : ℕ) : List α := ks.drop (ks.length - n)

/-- A swing point `{index, price, timestamp}` as produced by
`findSwingPoints`. -/
structure Swing where
  index : ℕ
  price : ℚ
  timestamp : Int
deriving Repr, DecidableEq

/-- `findSwingPoints(klines, lookback)` (strategy.js): index `i`
(`lookback ≤ i < n - lookback`) is a swing high iff its high is strictly
greater than every high `lookback` candles to each side; symmetric for
swing lows on `low`. -/
def findSwingPoints (ks : List Kline) (lookback : ℕ) : List Swing × List Swing :=
  let n := ks.length
  let idxs := (List.range n).filter (fun i => lookback ≤ i && i < n - lookback)
  let isHigh := fun i => (List.range' 1 lookback).all
    (fun j => (kget ks (i - j)).high < (kget ks i).high &&
              (kget ks (i + j)).high < (kget ks i).high)
  let isLow := fun i => (List.range' 1 lookback).all
    (fun j => (kget ks i).low < (kget ks (i - j)).low &&
              (kget ks i).low < (kget ks (i + j)).low)
  (idxs.filterMap (fun i =>
      if isHigh i then some ⟨i, (kget ks i).high, (kget ks i).timestamp⟩ else none),
   idxs.filterMap (fun i =>
      if isLow i then some ⟨i, (kget ks i).low, (kget ks i).timestamp⟩ else none))

/-- A structural-break event: `{type, level/brokenLevel, ...}`.  The JS
`type` discriminators are strings, which we keep (string comparison against
the wrong constant is semantically significant in `analyzeLTF`). -/
structure Choch where
  type : String
  level : ℚ
deriving Repr, DecidableEq

/-- `detectChoCH(klines, swingHighs, swingLows)` (strategy.js): requires at
least 2 swing points of each kind; bullish fires first (rising lows), then
bearish (falling highs). -/
def detectChoCH (highs lows : List Swing) : Option Choch :=
  if highs.length < 2 || lows.length < 2 then none
  else
    let rHighs := takeLast highs 3
    let rLows := takeLast lows 3
    let lastLow := (rLows.getLastD ⟨0, 0, 0⟩)
    let prevLow := ((rLows.dropLast).getLastD ⟨0, 0, 0⟩)
    let lastHigh := (rHighs.getLastD ⟨0, 0, 0⟩)
    let prevHigh := ((rHighs.dropLast).getLastD ⟨0, 0, 0⟩)
    if 2 ≤ rLows.length && prevLow.price < lastLow.price then
      some ⟨"BULLISH_CHOCH", lastLow.price⟩
    else if 2 ≤ rHighs.length && lastHigh.price < prevHigh.price then
      some ⟨"BEARISH_CHOCH", lastHigh.price⟩
    else none

/-- A fair value gap `{type, top, bottom, size, sizePercent}`. -/
structure FVG where
  type : String
  top : ℚ
  bottom : ℚ
  size : ℚ
  sizePercent : ℚ
deriving Repr, DecidableEq

/-- `detectFVG(klines)` (strategy.js): three-candle imbalance, bullish when
`high(i-2) < low(i)`, bearish when `low(i-2) > high(i)`, kept when the gap
is at least `FVG_MIN_SIZE_PERCENT = 0.1` percent of the mid price. -/
def detectFVG (ks : List Kline) : List FVG :=
  ((List.range ks.length).filter (fun i => 2 ≤ i)).flatMap (fun i =>
    let k1 := kget ks (i - 2)
    let k3 := kget ks i
    let bull :=
      if k1.high < k3.low then
        let sz := k3.low - k1.high
        let mid := (k1.high + k3.low) / 2
        let pct := sz / mid * 100
        if 1/10 ≤ pct then [FVG.mk "BULLISH_FVG" k3.low k1.high sz pct] else []
      else []
    let bear :=
      if k3.high < k1.low then
        let sz := k1.low - k3.high
        let mid := (k1.low + k3.high) / 2
        let pct := sz / mid * 100
        if 1/10 ≤ pct then [FVG.mk "BEARISH_FVG" k1.low k3.high sz pct] else []
      else []
    bull ++ bear)

/-- An order block `{type, high, low, strength}`. -/
structure OrderBlock where
  type : String
  high : ℚ
  low : ℚ
  strength : ℚ
deriving Repr, DecidableEq

/-- `detectOrderBlocks(klines)` (strategy.js). -/
def detectOrderBlocks (ks : List Kline) : List OrderBlock :=
  ((List.range ks.length).filter (fun i => 3 ≤ i && i < ks.length - 1)).flatMap (fun i =>
    let k0 := kget ks (i - 1)
    let k1 := kget ks i
    let k2 := kget ks (i + 1)
    let bull :=
      if k0.close < k0.open_ && k1.open_ < k1.close && k0.high < k1.close
          && k2.open_ < k2.close then
        [OrderBlock.mk "BULLISH_OB" k1.high k1.low ((k1.close - k1.open_) / k1.open_)]
      else []
    let bear :=
      if k0.open_ < k0.close && k1.close < k1.open_ && k1.close < k0.low
          && k2.close < k2.open_ then
        [OrderBlock.mk "BEARISH_OB" k1.high k1.low ((k1.open_ - k1.close) / k1.open_)]
      else []
    bull ++ bear)

/-- `calculateATR(klines, period)` (strategy.js): simple average of the last
`period` true ranges; `0` when fewer than `period + 1` candles. -/
def calculateATR (ks : List Kline) (period : ℕ) : ℚ :=
  if ks.length < period + 1 then 0
  else
    let trs := ((List.range ks.length).filter (fun i => 1 ≤ i)).map (fun i =>
      let c := kget ks i
      let p := kget ks (i - 1)
      max (c.high - c.low) (max |c.high - p.close| |c.low - p.close|))
    (takeLast trs period).sum / period

/-- `calculateRSI(klines, period)` (strategy.js): gains/losses over the last
`period` close-to-close changes; returns 50 on short input and 100 on zero
average loss. -/
def calculateRSI (ks : List Kline) (period : ℕ) : ℚ :=
  if ks.length < period + 1 then 50
  else
    let idxs := (List.range ks.length).filter (fun i => ks.length - period ≤ i)
    let gains := (idxs.map (fun i =>
      let ch := (kget ks i).close - (kget ks (i - 1)).close
      if 0 < ch then ch else 0)).sum
    let losses := (idxs.map (fun i =>
      let ch := (kget ks i).close - (kget ks (i - 1)).close
      if 0 < ch then 0 else |ch|)).sum
    if losses = 0 then 100
    else
      let rs := (gains / period) / (losses / period)
      100 - 100 / (1 + rs)

/-- Trend verdict `{direction, strength, confidence, rsi, sma}` of
`determineTrendDetailed`. -/
structure Trend where
  direction : String
  strength : ℚ
  confidence : String
  rsi : ℚ
  sma : ℚ
deriving Repr, DecidableEq

/-- `determineTrendDetailed(klines)` (strategy.js): price deviation off the
20-period SMA bucketed at ±0.5% / ±2%, RSI(14) agreement upgrading (or
downgrading) confidence. -/
def determineTrendDetailed (ks : List Kline) : Trend :=
  if ks.length < 20 then ⟨"NEUTRAL", 0, "low", 0, 0⟩
  else
    let recent := takeLast ks 20
    let sma := (recent.map (·.close)).sum / 20
    let cur := (klast ks).close
    let ch := (cur - sma) / sma
    let dir : String :=
      if 2/100 < ch then "BULLISH"
      else if 5/1000 < ch then "WEAK_BULLISH"
      else if ch < -(2/100) then "BEARISH"
      else if ch < -(5/1000) then "WEAK_BEARISH"
      else "NEUTRAL"
    let rsi := calculateRSI ks 14
    let conf : String :=
      if (dir = "BULLISH" && 50 < rsi) || (dir = "BEARISH" && rsi < 50) then "high"
      else if (dir = "BULLISH" && rsi < 40) || (dir = "BEARISH" && 60 < rsi) then "low"
      else "medium"
    ⟨dir, |ch|, conf, rsi, sma⟩

/-- A whole-market sweep event `{type, direction, sweptLevel}` from strategy.js
`detectSweep`. -/
structure StratSweep where
  type : String
  direction : String
  sweptLevel : ℚ
deriving Repr, DecidableEq

/-- `detectSweep(klines)` (strategy.js): scans the last 5 candles, first for
a wick above the latest swing high reclaimed below it, then for a wick below
the latest swing low reclaimed above it; wick must strictly exceed
`2.0 ×` body. -/
def detectSweep (ks : List Kline) : Option StratSweep :=
  if ks.length < 10 then none
  else
    let sw := findSwingPoints ks 3
    if sw.1.length < 2 || sw.2.length < 2 then none
    else
      let rh := sw.1.getLastD ⟨0, 0, 0⟩
      let rl := sw.2.getLastD ⟨0, 0, 0⟩
      let recent := takeLast ks 5
      let hi := recent.find? (fun k =>
        let wAbove := k.high - max k.open_ k.close
        let body := |k.close - k.open_|
        rh.price < k.high && body * 2 < wAbove && k.close < rh.price)
      match hi with
      | some _ => some ⟨"HIGH_SWEEP", "BEARISH", rh.price⟩
      | none =>
        let lo := recent.find? (fun k =>
          let wBelow := min k.open_ k.close - k.low
          let body := |k.close - k.open_|
          k.low < rl.price && body * 2 < wBelow && rl.price < k.close)
        match lo with
        | some _ => some ⟨"LOW_SWEEP", "BULLISH", rl.price⟩
        | none => none

end TSMTF

namespace TSMTF

/-! ## multiTimeframe module

Two copies exist in the repository: the fully documented one and the
condensed one under `backend/src` (the copy `mtfScanner.js` resolves).
They differ in exactly two behaviours, so the differing functions are
embedded twice: `checkRanging` (the condensed copy tests only the 8-candle
range percent, the documented copy additionally requires two touches of
each extreme) and the direction assignment in `analyzeLTF` (the documented
copy compares the internal-BOS type against the string `BULLISH_BOS`,
which `detectInternalBOS` never produces). -/

/-- A BOS event `{type, brokenLevel}`. -/
structure Bos where
  type : String
  brokenLevel : ℚ
deriving Repr, DecidableEq

/-- `detectBOS(klines, swingHighs, swingLows)` (multiTimeframe.js): the last
candle's body extreme and close against the second-to-last swing
high/low. -/
def detectBOS (ks : List Kline) (highs lows : List Swing) : Option Bos :=
  if highs.length < 2 || lows.length < 2 then none
  else
    let last := klast ks
    let ph := (highs.dropLast).getLastD ⟨0, 0, 0⟩
    let pl := (lows.dropLast).getLastD ⟨0, 0, 0⟩
    let bodyTop := max last.open_ last.close
    let bodyBot := min last.open_ last.close
    if ph.price < bodyTop && ph.price < last.close then
      some ⟨"BULLISH_BOS", ph.price⟩
    else if bodyBot < pl.price && last.close < pl.price then
      some ⟨"BEARISH_BOS", pl.price⟩
    else none

/-- `confirmStrongClose(klines, bos)` (multiTimeframe.js): evaluates the
last candle of the sequence — its close against the broken level
(position) and against its own open (momentum).  The documented copy also
computes `breakKline = klines[klines.length - 2]` but never uses it. -/
def confirmStrongClose (ks : List Kline) (bos : Bos) : Bool :=
  if ks.length < 2 then false
  else
    let c := klast ks
    let pos := if bos.type = "BULLISH_BOS" then bos.brokenLevel < c.close
               else c.close < bos.brokenLevel
    let mom := if bos.type = "BULLISH_BOS" then c.open_ < c.close
               else c.close < c.open_
    pos && mom

/-- `detectInternalBOS(klines, ...)` (multiTimeframe.js): swing detection
with lookback 2 over the last 10 candles, last close against the
second-to-last internal extreme.  Note the emitted type strings are
`BULLISH_INTERNAL_BOS` / `BEARISH_INTERNAL_BOS`. -/
def detectInternalBOS (ks : List Kline) : Option Bos :=
  let recent := takeLast ks 10
  let sw := findSwingPoints recent 2
  let ih := sw.1
  let il := sw.2
  if ih.length < 2 && il.length < 2 then none
  else
    let last := klast ks
    if 2 ≤ ih.length && ((ih.dropLast).getLastD ⟨0, 0, 0⟩).price < last.close then
      some ⟨"BULLISH_INTERNAL_BOS", ((ih.dropLast).getLastD ⟨0, 0, 0⟩).price⟩
    else if 2 ≤ il.length && last.close < ((il.dropLast).getLastD ⟨0, 0, 0⟩).price then
      some ⟨"BEARISH_INTERNAL_BOS", ((il.dropLast).getLastD ⟨0, 0, 0⟩).price⟩
    else none

/-- `checkRanging(klines)`, condensed copy (backend/src/multiTimeframe.js):
ranging iff the last-8-candle high/low range is below 1.5% of its
midpoint. -/
def checkRanging (ks : List Kline) : Bool :=
  if ks.length < 8 then false
  else
    let r := takeLast ks 8
    let maxH := ((r.map (·.high)).max?).getD 0
    let minL := ((r.map (·.low)).min?).getD 0
    let range := maxH - minL
    let mid := (maxH + minL) / 2
    range / mid * 100 < 3/2

/-- `checkRanging(klines)`, documented copy (multiTimeframe.js full
version): additionally requires at least two highs above 99.8% of the
window maximum and two lows below 100.2% of the window minimum. -/
def checkRangingP1 (ks : List Kline) : Bool :=
  if ks.length < 8 then false
  else
    let r := takeLast ks 8
    let highs := r.map (·.high)
    let lows := r.map (·.low)
    let maxH := (highs.max?).getD 0
    let minL := (lows.min?).getD 0
    let range := maxH - minL
    let mid := (maxH + minL) / 2
    let rangePercent := range / mid * 100
    let highTouches := (highs.filter (fun h => maxH * (998/1000) < h)).length
    let lowTouches := (lows.filter (fun l => l < minL * (1002/1000))).length
    rangePercent < 3/2 && 2 ≤ highTouches && 2 ≤ lowTouches

/-- Hi-Lo-Two counter result.  The `-1` index sentinels of the JS source are
kept as `Int`. -/
structure HiLo where
  valid : Bool
  type : String
  oneIndex : Int := -1
  pullbackIndex : Int := -1
  twoIndex : Int := -1
  entryPrice : Option ℚ := none
  stopLoss : Option ℚ := none
  countingPaused : Bool := false
  pauseReason : Option String := none
  reason : Option String := none
deriving Repr, DecidableEq

/-- The index-scanning loop of `countHighs`: state `(h1, pb, h2)` with `-1`
sentinels, breaking at the first "high two". -/
def countHighsScan (ks : List Kline) : Int × Int × Int := Id.run do
  let mut h1 : Int := -1
  let mut pb : Int := -1
  let mut h2 : Int := -1
  for i in List.range' 1 (ks.length - 1) do
    let current := kget ks i
    let prev := kget ks (i - 1)
    if h2 ≠ -1 then
      pure ()
    else if h1 = -1 && prev.high < current.high then
      h1 := i
    else if h1 ≠ -1 && pb = -1 && current.high < (kget ks h1.toNat).high then
      pb := i
    else if h1 ≠ -1 && pb ≠ -1 && (kget ks pb.toNat).high < current.high then
      h2 := i
  return (h1, pb, h2)

/-- The index-scanning loop of `countLows` (mirror of `countHighsScan`). -/
def countLowsScan (ks : List Kline) : Int × Int × Int := Id.run do
  let mut l1 : Int := -1
  let mut pb : Int := -1
  let mut l2 : Int := -1
  for i in List.range' 1 (ks.length - 1) do
    let current := kget ks i
    let prev := kget ks (i - 1)
    if l2 ≠ -1 then
      pure ()
    else if l1 = -1 && current.low < prev.low then
      l1 := i
    else if l1 ≠ -1 && pb = -1 && (kget ks l1.toNat).low < current.low then
      pb := i
    else if l1 ≠ -1 && pb ≠ -1 && current.low < (kget ks pb.toNat).low then
      l2 := i
  return (l1, pb, l2)

/-- Shared result assembly of `countHighs`, parameterised by the ranging
check in force (the two module copies differ only there). -/
def countHighsWith (ranging : List Kline → Bool) (ks : List Kline) : HiLo :=
  let s := countHighsScan ks
  let h1 := s.1
  let pb := s.2.1
  let h2 := s.2.2
  let isRanging := ranging ks
  if h2 ≠ -1 && !isRanging then
    { valid := true, type := "HIGH_TWO", oneIndex := h1, pullbackIndex := pb,
      twoIndex := h2,
      entryPrice := some ((kget ks h2.toNat).high * (1001/1000)),
      stopLoss := some
        ((((ks.take h2.toNat).drop pb.toNat).map (·.low)).min?.getD 0 * (999/1000)),
      countingPaused := false }
  else if isRanging then
    { valid := false, type := if h1 ≠ -1 then "HIGH_ONE" else "NONE",
      oneIndex := h1, countingPaused := true, pauseReason := some "PRICE_RANGING" }
  else
    { valid := false, type := if h1 ≠ -1 then "HIGH_ONE" else "NONE",
      oneIndex := h1, pullbackIndex := pb, countingPaused := false }

/-- Shared result assembly of `countLows`. -/
def countLowsWith (ranging : List Kline → Bool) (ks : List Kline) : HiLo :=
  let s := countLowsScan ks
  let l1 := s.1
  let pb := s.2.1
  let l2 := s.2.2
  let isRanging := ranging ks
  if l2 ≠ -1 && !isRanging then
    { valid := true, type := "LOW_TWO", oneIndex := l1, pullbackIndex := pb,
      twoIndex := l2,
      entryPrice := some ((kget ks l2.toNat).low * (999/1000)),
      stopLoss := some
        ((((ks.take l2.toNat).drop pb.toNat).map (·.high)).max?.getD 0 * (1001/1000)),
      countingPaused := false }
  else if isRanging then
    { valid := false, type := if l1 ≠ -1 then "LOW_ONE" else "NONE",
      oneIndex := l1, countingPaused := true, pauseReason := some "PRICE_RANGING" }
  else
    { valid := false, type := if l1 ≠ -1 then "LOW_ONE" else "NONE",
      oneIndex := l1, pullbackIndex := pb, countingPaused := false }

/-- `countHighs` of the condensed backend copy. -/
def countHighs (ks : List Kline) : HiLo := countHighsWith checkRanging ks

/-- `countLows` of the condensed backend copy. -/
def countLows (ks : List Kline) : HiLo := countLowsWith checkRanging ks

/-- `countHighs` of the documented copy (touch-sensitive ranging filter). -/
def countHighsP1 (ks : List Kline) : HiLo := countHighsWith checkRangingP1 ks

/-- `countLows` of the documented copy. -/
def countLowsP1 (ks : List Kline) : HiLo := countLowsWith checkRangingP1 ks

/-- `detectHiLoTwo(klines, direction)` (backend copy): counts over the last
10 candles, highs for LONG and lows otherwise. -/
def detectHiLoTwo (ks : List Kline) (dir : String) : HiLo :=
  if ks.length < 10 then { valid := false, type := "", reason := some "INSUFFICIENT_DATA" }
  else
    let recent := takeLast ks 10
    if dir = "LONG" then countHighs recent else countLows recent

/-- `detectHiLoTwo` of the documented copy: three-way on the direction with
a `NO_DIRECTION` fall-through. -/
def detectHiLoTwoP1 (ks : List Kline) (dir : String) : HiLo :=
  if ks.length < 10 then { valid := false, type := "", reason := some "INSUFFICIENT_DATA" }
  else
    let recent := takeLast ks 10
    if dir = "LONG" then countHighsP1 recent
    else if dir = "SHORT" then countLowsP1 recent
    else { valid := false, type := "", reason := some "NO_DIRECTION" }

end TSMTF

namespace TSMTF

/-- A point of interest collected by `analyzeHTF`.  `FVG` / `ORDER_BLOCK`
POIs carry `top`/`bottom`; `LIQUIDITY_POOL` POIs carry `level` (the JS
objects simply omit the other keys, which `checkPriceInPOI` never reads for
that type; omitted numeric keys are embedded as `0`). -/
structure POI where
  type : String
  subtype : String
  top : ℚ := 0
  bottom : ℚ := 0
  level : ℚ := 0
  tested : Bool := false
  priority : String := "medium"
deriving Repr, DecidableEq

/-- Strategic-tier result of `analyzeHTF`. -/
structure HTFResult where
  valid : Bool
  reason : Option String := none
  direction : String
  trend : Trend := ⟨"NEUTRAL", 0, "low", 0, 0⟩
  swingHighs : List Swing := []
  swingLows : List Swing := []
  poi : List POI := []
  fvg : List FVG := []
  orderBlocks : List OrderBlock := []
  currentPrice : ℚ := 0
  atr : ℚ := 0
deriving Repr, DecidableEq

/-- `analyzeHTF(klines)` (backend/src/multiTimeframe.js): trend direction
mapped to LONG/SHORT/NEUTRAL, POIs from the last 3 FVGs, last 2 order
blocks and the latest swing extremes. -/
def analyzeHTF (ks : List Kline) : HTFResult :=
  if ks.length < 20 then
    { valid := false, reason := some "INSUFFICIENT_DATA", direction := "NEUTRAL" }
  else
    let sw := findSwingPoints ks 5
    let trend := determineTrendDetailed ks
    let fvgList := detectFVG ks
    let obs := detectOrderBlocks ks
    let direction : String :=
      if trend.direction = "BULLISH" || trend.direction = "WEAK_BULLISH" then "LONG"
      else if trend.direction = "BEARISH" || trend.direction = "WEAK_BEARISH" then "SHORT"
      else "NEUTRAL"
    let cur := (klast ks).close
    let fvgPoi := (takeLast fvgList 3).map (fun f =>
      { type := "FVG", subtype := f.type, top := f.top, bottom := f.bottom,
        tested := if direction = "LONG" then decide (cur ≤ f.top) else decide (f.bottom ≤ cur),
        priority := if (1/2 : ℚ) < f.sizePercent then "high" else "medium" : POI })
    let obPoi := (takeLast obs 2).map (fun ob =>
      { type := "ORDER_BLOCK", subtype := ob.type, top := ob.high, bottom := ob.low,
        tested := false,
        priority := if (2/100 : ℚ) < ob.strength then "high" else "medium" : POI })
    let hiPoi := if sw.1.length ≠ 0 then
        [{ type := "LIQUIDITY_POOL", subtype := "BUY_SIDE",
           level := (sw.1.getLastD ⟨0, 0, 0⟩).price, priority := "high" : POI }]
      else []
    let loPoi := if sw.2.length ≠ 0 then
        [{ type := "LIQUIDITY_POOL", subtype := "SELL_SIDE",
           level := (sw.2.getLastD ⟨0, 0, 0⟩).price, priority := "high" : POI }]
      else []
    { valid := true, direction := direction, trend := trend,
      swingHighs := sw.1, swingLows := sw.2,
      poi := fvgPoi ++ obPoi ++ hiPoi ++ loPoi,
      fvg := takeLast fvgList 3, orderBlocks := takeLast obs 2,
      currentPrice := cur, atr := calculateATR ks 14 }

/-- `checkPriceInPOI(price, poiList)` (multiTimeframe.js): membership in
some FVG / ORDER_BLOCK interval. -/
def checkPriceInPOI (price : ℚ) (poiList : List POI) : Bool :=
  poiList.any (fun p =>
    (p.type = "FVG" || p.type = "ORDER_BLOCK") && p.bottom ≤ price && price ≤ p.top)

/-- Tactical-tier result of `analyzeMTF`. -/
structure MTFResult where
  valid : Bool
  reason : Option String := none
  direction : String
  choch : Option Choch := none
  bos : Option Bos := none
  strongCloseConfirmed : Bool := false
  swingHighs : List Swing := []
  swingLows : List Swing := []
  fvg : List FVG := []
  inHTFPOI : Bool := false
  aligned : Bool
deriving Repr, DecidableEq

/-- `analyzeMTF(klines, htfDirection, htfPOI)` (backend/src/multiTimeframe.js):
direction from ChoCH, else BOS; aligned iff it matches the strategic
direction or the latter is neutral. -/
def analyzeMTF (ks : List Kline) (htfDirection : String) (htfPOI : List POI) : MTFResult :=
  if ks.length < 20 then
    { valid := false, reason := some "INSUFFICIENT_DATA", direction := "NEUTRAL",
      aligned := false }
  else
    let sw := findSwingPoints ks 3
    let choch := detectChoCH sw.1 sw.2
    let fvgList := detectFVG ks
    let bos := detectBOS ks sw.1 sw.2
    let strongClose := match bos with
      | some b => confirmStrongClose ks b
      | none => false
    let direction : String := match choch with
      | some c => if c.type = "BULLISH_CHOCH" then "LONG" else "SHORT"
      | none => match bos with
        | some b => if b.type = "BULLISH_BOS" then "LONG" else "SHORT"
        | none => "NEUTRAL"
    let cur := (klast ks).close
    let aligned := direction = htfDirection || htfDirection = "NEUTRAL"
    { valid := true, direction := direction, choch := choch, bos := bos,
      strongCloseConfirmed := strongClose, swingHighs := sw.1, swingLows := sw.2,
      fvg := takeLast fvgList 2, inHTFPOI := checkPriceInPOI cur htfPOI,
      aligned := aligned }

/-- Execution-tier result of `analyzeLTF`. -/
structure LTFResult where
  valid : Bool
  reason : Option String := none
  direction : String
  choch : Option Choch := none
  sweep : Option StratSweep := none
  internalBOS : Option Bos := none
  hiloCount : HiLo := { valid := false, type := "" }
  fvg : List FVG := []
  inEntryZone : Bool := false
  aligned : Bool
deriving Repr, DecidableEq

/-- `analyzeLTF(klines, htfDir, mtfDir, mtfFVG)` (backend/src copy):
direction from ChoCH, else from the internal BOS — here compared against
the string `BULLISH_INTERNAL_BOS` that `detectInternalBOS` emits. -/
def analyzeLTF (ks : List Kline) (htfDir mtfDir : String) (mtfFVG : List FVG) : LTFResult :=
  if ks.length < 20 then
    { valid := false, reason := some "INSUFFICIENT_DATA", direction := "NEUTRAL",
      aligned := false }
  else
    let sw := findSwingPoints ks 2
    let choch := detectChoCH sw.1 sw.2
    let sweep := detectSweep ks
    let fvgList := detectFVG ks
    let ibos := detectInternalBOS ks
    let hilo := detectHiLoTwo ks htfDir
    let dir : String := match choch with
      | some c => if c.type = "BULLISH_CHOCH" then "LONG" else "SHORT"
      | none => match ibos with
        | some b => if b.type = "BULLISH_INTERNAL_BOS" then "LONG" else "SHORT"
        | none => "NEUTRAL"
    let aligned := dir = htfDir && dir = mtfDir
    let cur := (klast ks).close
    let inZone := match mtfFVG.getLast? with
      | some f => f.bottom ≤ cur && cur ≤ f.top
      | none => false
    { valid := true, direction := dir, choch := choch, sweep := sweep,
      internalBOS := ibos, hiloCount := hilo, fvg := takeLast fvgList 2,
      inEntryZone := inZone, aligned := aligned }

/-- `analyzeLTF` of the documented copy (part_001 of the unnamed sources):
identical except that the internal-BOS branch compares the type against
`BULLISH_BOS` — a constant `detectInternalBOS` never produces — and that
it uses the documented copy's Hi-Lo counter. -/
def analyzeLTFP1 (ks : List Kline) (htfDir mtfDir : String) (mtfFVG : List FVG) : LTFResult :=
  if ks.length < 20 then
    { valid := false, reason := some "INSUFFICIENT_DATA", direction := "NEUTRAL",
      aligned := false }
  else
    let sw := findSwingPoints ks 2
    let choch := detectChoCH sw.1 sw.2
    let sweep := detectSweep ks
    let fvgList := detectFVG ks
    let ibos := detectInternalBOS ks
    let hilo := detectHiLoTwoP1 ks htfDir
    let dir : String := match choch with
      | some c => if c.type = "BULLISH_CHOCH" then "LONG" else "SHORT"
      | none => match ibos with
        | some b => if b.type = "BULLISH_BOS" then "LONG" else "SHORT"
        | none => "NEUTRAL"
    let aligned := dir = htfDir && dir = mtfDir
    let cur := (klast ks).close
    let inZone := match mtfFVG.getLast? with
      | some f => f.bottom ≤ cur && cur ≤ f.top
      | none => false
    { valid := true, direction := dir, choch := choch, sweep := sweep,
      internalBOS := ibos, hiloCount := hilo, fvg := takeLast fvgList 2,
      inEntryZone := inZone, aligned := aligned }

/-- Result of the alignment gate. -/
structure GateResult where
  passed : Bool
  blocked : Bool
  blockReason : Option String
deriving Repr, DecidableEq

/-- `MTF_CONFIG.ALIGNMENT_GATE.strictMode` — `true` in both copies. -/
def strictMode : Bool := true

/-- `checkAlignmentGate(htf, mtf, ltf)` (multiTimeframe.js): the six checks
in fixed order with early return; checks 1–4 hard-block, checks 5–7 block
in strict mode (which is on), the entry-zone check only clears `passed`. -/
def checkAlignmentGate (htf : HTFResult) (mtf : MTFResult) (ltf : LTFResult) : GateResult :=
  if !htf.valid then ⟨false, true, some "HTF_DATA_INVALID"⟩
  else if !mtf.valid then ⟨false, true, some "MTF_DATA_INVALID"⟩
  else if !ltf.valid then ⟨false, true, some "LTF_DATA_INVALID"⟩
  else if htf.direction = "NEUTRAL" then ⟨false, true, some "HTF_DIRECTION_NEUTRAL"⟩
  else if !mtf.aligned then ⟨false, strictMode, some "MTF_NOT_ALIGNED"⟩
  else if !mtf.inHTFPOI then ⟨false, strictMode, some "MTF_NOT_IN_HTF_POI"⟩
  else if !ltf.aligned then ⟨false, strictMode, some "LTF_NOT_FULLY_ALIGNED"⟩
  else if !ltf.inEntryZone then ⟨false, false, some "LTF_NOT_IN_ENTRY_ZONE"⟩
  else ⟨true, false, none⟩

/-- Input bundle `{'4h': ..., '15m': ..., '1m': ...}`. -/
structure MtfData where
  h4 : List Kline
  m15 : List Kline
  m1 : List Kline
deriving Repr, DecidableEq

/-- Combined analysis result of `analyzeMultiTimeframe`. -/
structure MtfAnalysis where
  htf : HTFResult
  mtf : MTFResult
  ltf : LTFResult
  gate : GateResult
  aligned : Bool
  canGenerateSignal : Bool
  blockedReason : Option String
deriving Repr, DecidableEq

/-- `analyzeMultiTimeframe(mtfData)` (backend/src/multiTimeframe.js). -/
def analyzeMultiTimeframe (d : MtfData) : MtfAnalysis :=
  let htf := analyzeHTF d.h4
  let mtf := analyzeMTF d.m15 htf.direction htf.poi
  let ltf := analyzeLTF d.m1 htf.direction mtf.direction mtf.fvg
  let gate := checkAlignmentGate htf mtf ltf
  { htf := htf, mtf := mtf, ltf := ltf, gate := gate,
    aligned := gate.passed, canGenerateSignal := gate.passed && !gate.blocked,
    blockedReason := gate.blockReason }

end TSMTF

namespace TSMTF

/-! ## liquiditySweep module (part_000 documented copy) -/

/-- An equal-level cluster `{price, touches, indices}` of
`findEqualLevels`; `createdIdx` records the position at which the cluster
was appended to the JS `levels` array (creation order), used to model the
specified stability of `Array.prototype.sort`. -/
structure Level where
  price : ℚ
  touches : ℕ
  indices : List ℕ
  createdIdx : ℕ
deriving Repr, DecidableEq

/-- Scan the existing clusters in creation order; bump the first one whose
anchor is within tolerance of `p`, or report `none`. -/
def addTouch (tol p : ℚ) (i : ℕ) : List Level → Option (List Level)
  | [] => none
  | l :: ls =>
    if |p - l.price| < l.price * (tol / 100) then
      some ({ l with touches := l.touches + 1, indices := l.indices ++ [i] } :: ls)
    else (addTouch tol p i ls).map (l :: ·)

/-- The cluster-building loop of `findEqualLevels`: greedily join the first
matching cluster, else append a fresh one. -/
def buildLevels (tol : ℚ) (prices : List ℚ) : List Level :=
  prices.enum.foldl (fun ls ip =>
    match addTouch tol ip.2 ip.1 ls with
    | some ls' => ls'
    | none => ls ++ [⟨ip.2, 1, [ip.1], ls.length⟩]) []

/-- The ordering realised by the JS stable sort
`sort((a, b) => b.touches - a.touches)`: touch count descending, with ties
kept in creation order (ECMAScript guarantees sort stability). -/
def levelLE (a b : Level) : Prop :=
  b.touches < a.touches ∨ (a.touches = b.touches ∧ a.createdIdx ≤ b.createdIdx)

instance : DecidableRel levelLE := fun a b => by unfold levelLE; infer_instance

instance : IsTotal Level levelLE := by
  constructor
  intro a b
  unfold levelLE
  omega

instance : IsTrans Level levelLE := by
  constructor
  intro a b c hab hbc
  unfold levelLE at *
  omega

/-- `findEqualLevels(klines, type, tolerancePercent)` (liquiditySweep.js):
cluster the relevant price of the most recent 30 candles, keep clusters
with at least 2 touches, sort by touch count descending (stable). -/
def findEqualLevels (ks : List Kline) (type : String) (tolerancePercent : ℚ) : List Level :=
  let recent := takeLast ks 30
  let prices := recent.map (fun k => if type = "high" then k.high else k.low)
  let levels := buildLevels tolerancePercent prices
  (levels.filter (fun l => 2 ≤ l.touches)).insertionSort levelLE

/-- A liquidity pool entry. -/
structure Pool where
  type : String
  level : ℚ
  priority : String
  touches : ℕ := 0
deriving Repr, DecidableEq

/-- The two pool lists of `identifyLiquidityPools`. -/
structure Pools where
  buySide : List Pool
  sellSide : List Pool
deriving Repr, DecidableEq

/-- `identifyLiquidityPools(klines)` (liquiditySweep.js): the last 5 swing
highs/lows — where the `forEach` index over the *sliced* array is compared
against `length - 1` of the *unsliced* swing list — plus every equal-level
cluster at `high` priority. -/
def identifyLiquidityPools (ks : List Kline) : Pools :=
  let sw := findSwingPoints ks 3
  let buySwing := (takeLast sw.1 5).enum.map (fun is =>
    { type := "SWING_HIGH", level := is.2.price,
      priority := if is.1 = sw.1.length - 1 then "high" else "medium" : Pool })
  let sellSwing := (takeLast sw.2 5).enum.map (fun is =>
    { type := "SWING_LOW", level := is.2.price,
      priority := if is.1 = sw.2.length - 1 then "high" else "medium" : Pool })
  let equalHighs := (findEqualLevels ks "high" 3).map (fun l =>
    { type := "EQUAL_HIGH", level := l.price, priority := "high", touches := l.touches : Pool })
  let equalLows := (findEqualLevels ks "low" 3).map (fun l =>
    { type := "EQUAL_LOW", level := l.price, priority := "high", touches := l.touches : Pool })
  ⟨buySwing ++ equalHighs, sellSwing ++ equalLows⟩

/-- Post-sweep confirmation verdict. -/
structure Confirmation where
  confirmed : Bool
  confirmingKline : Option ℕ := none
  reason : Option String := none
  checkedKlines : Option ℕ := none
deriving Repr, DecidableEq

/-- `checkSweepConfirmation(klines, sweepIndex, direction)`
(liquiditySweep.js): up to 3 candles after the sweep candle; confirmed on a
directional close, or (from the second one on) a close beyond the first
subsequent candle's open. -/
def checkSweepConfirmation (ks : List Kline) (sweepIndex : ℕ) (direction : String) :
    Confirmation :=
  if ks.length - 1 ≤ sweepIndex then
    { confirmed := false, reason := some "NO_SUBSEQUENT_CANDLE" }
  else
    let subsequent := ks.drop (sweepIndex + 1)
    let checkWindow := min 3 subsequent.length
    let firstOpen := (subsequent.headD defKline).open_
    let hit := (List.range checkWindow).find? (fun i =>
      let k := kget subsequent i
      if direction = "LONG" then
        k.open_ < k.close || (decide (0 < i) && firstOpen < k.close)
      else if direction = "SHORT" then
        k.close < k.open_ || (decide (0 < i) && k.close < firstOpen)
      else false)
    match hit with
    | some i => { confirmed := true, confirmingKline := some i }
    | none => { confirmed := false, reason := some "NO_CONFIRMATION_IN_WINDOW",
                checkedKlines := some checkWindow }

/-- Sweep metrics `{wickLength, bodySize, wickToBodyRatio, sweepDepth,
sweepPercent}`. -/
structure SweepMetrics where
  wickLength : ℚ
  bodySize : ℚ
  wickToBodyRatio : ℚ
  sweepDepth : ℚ
  sweepPercent : ℚ
deriving Repr, DecidableEq

/-- Result of the pool-based sweep detectors. -/
structure SweepResult where
  detected : Bool
  type : Option String := none
  direction : Option String := none
  pool : Option Pool := none
  sweepIndex : Option ℕ := none
  sweepKline : Option Kline := none
  sweepMetrics : Option SweepMetrics := none
  confirmation : Option Confirmation := none
  reason : Option String := none
  targetPool : Option ℚ := none
  checkedKlines : Option ℕ := none
deriving Repr, DecidableEq

/-- The four sweep conditions of `detectSellSideSweep` for one candle:
level breached by the low, nonzero body with lower wick strictly above
`WICK_RATIO = 2.0` times the body, close reclaimed above the level, and
sweep depth at least `MIN_SWEEP_PERCENT = 0.1` percent of the level. -/
def sellSweepCond (level : ℚ) (k : Kline) : Bool :=
  let bodySize := |k.close - k.open_|
  let lowerWick := min k.open_ k.close - k.low
  let sweepSize := level - k.low
  let sweepPercent := sweepSize / level * 100
  k.low < level && (0 < bodySize && bodySize * 2 < lowerWick) &&
    level < k.close && (1/10 : ℚ) ≤ sweepPercent

/-- The mirrored conditions of `detectBuySideSweep`. -/
def buySweepCond (level : ℚ) (k : Kline) : Bool :=
  let bodySize := |k.close - k.open_|
  let upperWick := k.high - max k.open_ k.close
  let sweepSize := k.high - level
  let sweepPercent := sweepSize / level * 100
  level < k.high && (0 < bodySize && bodySize * 2 < upperWick) &&
    k.close < level && (1/10 : ℚ) ≤ sweepPercent

/-- The scanning loop of `detectSellSideSweep`: return at the first candle
meeting every condition. -/
def sellSweepGo (full : List Kline) (target : Pool) : ℕ → List Kline → SweepResult
  | _, [] =>
    { detected := false, reason := some "NO_VALID_SWEEP",
      targetPool := some target.level, checkedKlines := some full.length }
  | i, k :: rest =>
    if sellSweepCond target.level k then
      let bodySize := |k.close - k.open_|
      let lowerWick := min k.open_ k.close - k.low
      let sweepSize := target.level - k.low
      { detected := true, type := some "SELL_SIDE_SWEEP", direction := some "LONG",
        pool := some target, sweepIndex := some i, sweepKline := some k,
        sweepMetrics := some ⟨lowerWick, bodySize, lowerWick / bodySize, sweepSize,
          sweepSize / target.level * 100⟩,
        confirmation := some (checkSweepConfirmation full i "LONG") }
    else sellSweepGo full target (i + 1) rest

/-- The scanning loop of `detectBuySideSweep`. -/
def buySweepGo (full : List Kline) (target : Pool) : ℕ → List Kline → SweepResult
  | _, [] =>
    { detected := false, reason := some "NO_VALID_SWEEP",
      targetPool := some target.level, checkedKlines := some full.length }
  | i, k :: rest =>
    if buySweepCond target.level k then
      let bodySize := |k.close - k.open_|
      let upperWick := k.high - max k.open_ k.close
      let sweepSize := k.high - target.level
      { detected := true, type := some "BUY_SIDE_SWEEP", direction := some "SHORT",
        pool := some target, sweepIndex := some i, sweepKline := some k,
        sweepMetrics := some ⟨upperWick, bodySize, upperWick / bodySize, sweepSize,
          sweepSize / target.level * 100⟩,
        confirmation := some (checkSweepConfirmation full i "SHORT") }
    else buySweepGo full target (i + 1) rest

/-- The `high`-priority-first pool selection shared by both detectors. -/
def targetPoolOf (pools : List Pool) : Pool :=
  (pools.find? (fun p => p.priority = "high")).getD (pools.headD ⟨"", 0, "", 0⟩)

/-- `detectSellSideSweep(klines, sellSidePools)` (liquiditySweep.js). -/
def detectSellSideSweep (ks : List Kline) (pools : List Pool) : SweepResult :=
  if pools.isEmpty then { detected := false, reason := some "NO_LIQUIDITY_POOL" }
  else sellSweepGo ks (targetPoolOf pools) 0 ks

/-- `detectBuySideSweep(klines, buySidePools)` (liquiditySweep.js). -/
def detectBuySideSweep (ks : List Kline) (pools : List Pool) : SweepResult :=
  if pools.isEmpty then { detected := false, reason := some "NO_LIQUIDITY_POOL" }
  else buySweepGo ks (targetPoolOf pools) 0 ks

/-- `detectLiquiditySweep(klines, pools, expectedDirection)`
(liquiditySweep.js): scan only the last `VALIDITY_WINDOW = 5` candles, on
the side opposite to the expected trade direction. -/
def detectLiquiditySweep (ks : List Kline) (pools : Pools) (dir : String) : SweepResult :=
  let recent := takeLast ks 5
  if dir = "LONG" then detectSellSideSweep recent pools.sellSide
  else if dir = "SHORT" then detectBuySideSweep recent pools.buySide
  else { detected := false, reason := some "NO_DIRECTION" }

/-- `requireLiquiditySweep` result (the fields consumed downstream). -/
structure RLSResult where
  passed : Bool
  required : Bool
  poolsIdentified : Pools
  sweepDetails : Option SweepResult
  failureReason : Option String
deriving Repr, DecidableEq

/-- `requireLiquiditySweep(klines, direction, options)` (liquiditySweep.js):
identify pools, detect the sweep, and report pass/fail together with the
details consumed by the scanner. -/
def requireLiquiditySweep (ks : List Kline) (dir : String)
    (confirmationRequired : Bool) : RLSResult :=
  let pools := identifyLiquidityPools ks
  let r := detectLiquiditySweep ks pools dir
  { passed := r.detected, required := confirmationRequired,
    poolsIdentified := pools,
    sweepDetails := if r.detected then some r else none,
    failureReason := if r.detected then none else r.reason }

end TSMTF

namespace TSMTF

/-! ## strategy filters, validator, and the MTF scanner -/

/-- JS `x || d` on numbers (`0` is falsy). -/
def jsOr (x d : ℚ) : ℚ := if x = 0 then d else x

/-- 24h ticker snapshot (the only field the filters read). -/
structure Ticker where
  volume24h : ℚ
deriving Repr, DecidableEq

/-- One degradation penalty `{reason, penalty}`. -/
structure Penalty where
  reason : String
  penalty : ℚ
deriving Repr, DecidableEq

/-- Result of `degradationFilter`. -/
structure Degradation where
  originalScore : ℚ
  adjustedScore : ℚ
  penalties : List Penalty
deriving Repr, DecidableEq

/-- `degradationFilter(signal, klines, ticker)` (strategy.js): −10 when the
24h volume is under 400000, −5 for a weak ChoCH (the ChoCH objects built by
`detectChoCH` never carry `isStrong`, so `!signal.choch.isStrong` holds
whenever a ChoCH is present), −min(15, distance%·100) when the entry sits
more than 5% from the current close; the result is floored at 0 — and not
capped above. -/
def degradationFilter (baseScore entryPrice : ℚ) (choch : Option Choch)
    (ks : List Kline) (ticker : Option Ticker) : Degradation :=
  let score0 := jsOr baseScore 70
  let volPen : List Penalty := match ticker with
    | some t => if t.volume24h < 400000 then [⟨"LOW_VOLUME", 10⟩] else []
    | none => []
  let chochPen : List Penalty := match choch with
    | some _ => [⟨"WEAK_CHOCH", 5⟩]
    | none => []
  let currentPrice := (klast ks).close
  let distance := |entryPrice - currentPrice| / currentPrice
  let distPen : List Penalty :=
    if (5/100 : ℚ) < distance then [⟨"FAR_ENTRY", min 15 (distance * 100)⟩] else []
  let penalties := volPen ++ chochPen ++ distPen
  { originalScore := score0,
    adjustedScore := max 0 (score0 - (penalties.map (·.penalty)).sum),
    penalties := penalties }

/-- Result of `riskManagementCheck`. -/
structure RiskCheck where
  executionStatus : String
  rrrPassed : Bool
  slPassed : Bool
  positionSize : ℤ
  leverage : ℤ
deriving Repr, DecidableEq

/-- `riskManagementCheck(signal, accountBalance)` (strategy.js): blocks
unless `rrr ≥ MIN_RRR = 2` and the stop distance is strictly inside
(0.5%, 10%); sizes the position off a 1% account risk and caps leverage at
`min(3, ⌊1 / stop-distance⌋)`. -/
def riskManagementCheck (entryPrice sl rrr accountBalance : ℚ) : RiskCheck :=
  let rrrPassed := decide (2 ≤ rrr)
  let slDistance := |entryPrice - sl| / entryPrice
  let slPassed := decide ((5/1000 : ℚ) < slDistance) && decide (slDistance < (1/10 : ℚ))
  let riskAmount := accountBalance * (1/100)
  let positionSize := ⌊riskAmount / (entryPrice * slDistance)⌋
  let leverage := min 3 ⌊(1 : ℚ) / slDistance⌋
  { executionStatus := if rrrPassed && slPassed then "PASS" else "BLOCK",
    rrrPassed := rrrPassed, slPassed := slPassed,
    positionSize := positionSize, leverage := leverage }

/-- A recorded past signal, as consulted by `frequencyFilter`:
symbol and timestamp in ms. -/
structure PastSignal where
  symbol : String
  timestampMs : Int
deriving Repr, DecidableEq

/-- `frequencyFilter(symbol, recentSignals)` (strategy.js): fails when a
signal for the same symbol exists within the last
`MIN_SIGNAL_INTERVAL_HOURS = 4` hours of `now`. -/
def frequencyFilter (symbol : String) (recentSignals : List PastSignal)
    (now : Int) : Bool :=
  let cutoff := now - 4 * 3600 * 1000
  !(recentSignals.any (fun s => s.symbol = symbol && cutoff < s.timestampMs))

/-- `InputValidator.validateKlines(klines)` (errors.js): array length
checks, then per candle — in source order — `high < low`, a negative
price, a negative volume; the first violation raises a `ValidationError`
(embedded as `Except.error` with the message).  Lean records always carry
every field, so the missing-field branch of the source cannot fire in the
embedding. -/
def validateKlines (ks : List Kline) : Except String Unit :=
  if ks.length = 0 then .error "Klines array is empty"
  else if ks.length < 20 then .error "Klines must have at least 20 data points"
  else
    let bad := ks.enum.find? (fun ik =>
      let k := ik.2
      k.high < k.low || k.open_ < 0 || k.high < 0 || k.low < 0 || k.close < 0 ||
        k.volume < 0)
    match bad with
    | some ik =>
      let k := ik.2
      if k.high < k.low then .error s!"Kline[{ik.1}] high < low"
      else if k.open_ < 0 || k.high < 0 || k.low < 0 || k.close < 0 then
        .error s!"Kline[{ik.1}] contains negative price"
      else .error s!"Kline[{ik.1}] contains negative volume"
    | none => .ok ()

/-- The produced trade signal (the fields referenced by the claims; the
wall-clock metadata — `id`, `created_at`, `expires_at` — is omitted, being
impure and unexamined by every claim). -/
structure Signal where
  symbol : String
  direction : String
  entry_price : ℚ
  sl : ℚ
  tp1 : ℚ
  tp2 : ℚ
  rrr : ℚ
  rating : String
  score : ℚ
  status : String
  strongCloseConfirmed : Bool
  liquiditySweep : Option SweepResult
  entryConfirmation : Option (String × ℚ × ℚ)
deriving Repr, DecidableEq

/-- `generateMTFSignal(symbol, mtfAnalysis, sweepResult, hiloResult,
ticker, mtfData)` (mtfScanner.js): entry/stop from the Hi-Lo counter with
FVG and ATR fallbacks, fixed 2R/3R targets, base score 70 plus the five
bonuses (+10 alignment, +10 sweep, +10 hi-lo, +5 strong close, +5 high
trend confidence), degradation filter, and the inclusive S/A/B/C
thresholds 85/70/55. -/
def generateMTFSignal (symbol : String) (a : MtfAnalysis) (sweepResult : RLSResult)
    (hiloResult : HiLo) (ticker : Option Ticker) (d : MtfData) : Signal :=
  let e := hiloResult.entryPrice.getD 0
  let entryPrice := if hiloResult.valid && e ≠ 0 then e else (klast d.m1).close
  let s := hiloResult.stopLoss.getD 0
  let stopLoss :=
    if hiloResult.valid && s ≠ 0 then s
    else match a.mtf.fvg.getLast? with
      | some f => if a.htf.direction = "LONG" then f.bottom else f.top
      | none =>
        let atr := calculateATR d.m15 14
        if a.htf.direction = "LONG" then entryPrice - atr * (3/2)
        else entryPrice + atr * (3/2)
  let risk := |entryPrice - stopLoss|
  let tp1 := if a.htf.direction = "LONG" then entryPrice + risk * 2 else entryPrice - risk * 2
  let tp2 := if a.htf.direction = "LONG" then entryPrice + risk * 3 else entryPrice - risk * 3
  let rrr := |tp1 - entryPrice| / risk
  let baseScore : ℚ := 70
    + (if a.aligned then 10 else 0)
    + (if sweepResult.passed then 10 else 0)
    + (if hiloResult.valid then 10 else 0)
    + (if a.mtf.strongCloseConfirmed then 5 else 0)
    + (if a.htf.trend.confidence = "high" then 5 else 0)
  let degradation := degradationFilter baseScore entryPrice a.mtf.choch d.m15 ticker
  let score := degradation.adjustedScore
  let rating : String :=
    if 85 ≤ score then "S"
    else if 70 ≤ score then "A"
    else if 55 ≤ score then "B"
    else "C"
  { symbol := symbol, direction := a.htf.direction, entry_price := entryPrice,
    sl := stopLoss, tp1 := tp1, tp2 := tp2, rrr := rrr, rating := rating,
    score := score, status := "ACTIVE",
    strongCloseConfirmed := a.mtf.strongCloseConfirmed,
    liquiditySweep := if sweepResult.passed then sweepResult.sweepDetails else none,
    entryConfirmation := if hiloResult.valid then
        some (hiloResult.type, e, hiloResult.stopLoss.getD 0)
      else none }

/-- Per-symbol scan result `{symbol, signal, blocked, blockReason, error}`. -/
structure ScanResult where
  symbol : String
  signal : Option Signal := none
  blocked : Bool := false
  blockReason : Option String := none
  error : Option String := none
deriving Repr, DecidableEq

/-- The body of `scanSymbolMTF`'s `try` block.  Raw per-symbol market data
whose field accesses would raise a `TypeError` in JS (e.g. a missing or
non-array timeframe entry reaching `findSwingPoints`) is modelled as
`none`; well-formed data runs the six pipeline steps, each early return
mapped to a blocked result. -/
def scanPipeline (symbol : String) (data : Option MtfData) (ticker : Option Ticker)
    (scanHistory : List PastSignal) (now : Int) : Except String ScanResult :=
  match data with
  | none => .error "Cannot read properties of undefined"
  | some d =>
    let freqPassed := frequencyFilter symbol scanHistory now
    if !freqPassed then
      .ok { symbol := symbol, blocked := true, blockReason := some "FREQUENCY_LIMIT" }
    else
      let a := analyzeMultiTimeframe d
      if !a.canGenerateSignal then
        .ok { symbol := symbol, blocked := true, blockReason := a.blockedReason }
      else
        let sweepResult := requireLiquiditySweep d.m15 a.htf.direction true
        if !sweepResult.passed && sweepResult.required then
          .ok { symbol := symbol, blocked := true,
                blockReason := some "LIQUIDITY_SWEEP_REQUIRED" }
        else
          let hiloResult := detectHiLoTwo d.m1 a.htf.direction
          if !hiloResult.valid then
            .ok { symbol := symbol, blocked := true,
                  blockReason := some "HILO_CONFIRMATION_REQUIRED" }
          else
            let signal := generateMTFSignal symbol a sweepResult hiloResult ticker d
            let riskCheck := riskManagementCheck signal.entry_price signal.sl signal.rrr 10000
            if riskCheck.executionStatus = "BLOCK" then
              .ok { symbol := symbol, blocked := true,
                    blockReason := some "RISK_CHECK_FAILED" }
            else
              .ok { symbol := symbol, signal := some signal }

/-- `scanSymbolMTF(symbol, mtfData, ticker, scanHistory)` (mtfScanner.js):
the catch-all around the pipeline — any exception becomes a result with
`blocked = true`, `blockReason = 'ANALYSIS_ERROR'` and the error
message. -/
def scanSymbolMTF (symbol : String) (data : Option MtfData) (ticker : Option Ticker)
    (scanHistory : List PastSignal) (now : Int) : ScanResult :=
  match scanPipeline symbol data ticker scanHistory now with
  | .ok r => r
  | .error m =>
    { symbol := symbol, blocked := true, blockReason := some "ANALYSIS_ERROR",
      error := some m }

/-- Batch scan result of `scanAllSymbolsMTF`. -/
structure BatchResult where
  signals : List Signal
  filtered : List (String × Option String)
  errors : List (String × String)
deriving Repr, DecidableEq

/-- The per-symbol loop body of `scanAllSymbolsMTF` (mtfScanner.js): its
own `try`/`catch` around `scanSymbolMTF`, classifying each result into the
signal, filtered, or error list.  The `catch` branch is kept in the
embedding (as the `Except.error` case) even though `scanSymbolMTF`, which
never throws, makes it unreachable. -/
def scanStep (tickers : String → Option Ticker) (scanHistory : List PastSignal)
    (now : Int) (acc : BatchResult) (sd : String × Option MtfData) : BatchResult :=
  match (Except.ok (scanSymbolMTF sd.1 sd.2 (tickers sd.1) scanHistory now) :
      Except String ScanResult) with
  | .ok r =>
    match r.signal with
    | some sig => { acc with signals := acc.signals ++ [sig] }
    | none =>
      if r.blocked then { acc with filtered := acc.filtered ++ [(sd.1, r.blockReason)] }
      else acc
  | .error e => { acc with errors := acc.errors ++ [(sd.1, e)] }

/-- `scanAllSymbolsMTF(allMtfData, tickersData, scanHistory)`
(mtfScanner.js): fold every symbol through `scanStep`, so one symbol's
outcome never aborts the batch. -/
def scanAllSymbolsMTF (inputs : List (String × Option MtfData))
    (tickers : String → Option Ticker) (scanHistory : List PastSignal)
    (now : Int) : BatchResult :=
  inputs.foldl (scanStep tickers scanHistory now) ⟨[], [], []⟩

end TSMTF

namespace TSMTF

/-! ## Specification-side definitions

`gateChecks` and `firstFailReason` transcribe §4.5 of the specification
(the fixed priority order of the Alignment Gate and its failure reasons);
they are compared against the source-translated `checkAlignmentGate`. -/

/-- The gate's checks in the fixed §4.5 priority order, each paired with
its block reason: a check "clears" when its boolean is `true`. -/
def gateChecks (htf : HTFResult) (mtf : MTFResult) (ltf : LTFResult) :
    List (Bool × String) :=
  [(htf.valid, "HTF_DATA_INVALID"),
   (mtf.valid, "MTF_DATA_INVALID"),
   (ltf.valid, "LTF_DATA_INVALID"),
   (decide (htf.direction ≠ "NEUTRAL"), "HTF_DIRECTION_NEUTRAL"),
   (mtf.aligned, "MTF_NOT_ALIGNED"),
   (mtf.inHTFPOI, "MTF_NOT_IN_HTF_POI"),
   (ltf.aligned, "LTF_NOT_FULLY_ALIGNED"),
   (ltf.inEntryZone, "LTF_NOT_IN_ENTRY_ZONE")]

/-- The reason of the first failing check, per the spec's short-circuit
reading. -/
def firstFailReason (cs : List (Bool × String)) : Option String :=
  (cs.find? (fun c => !c.1)).map (·.2)

/-! ## Concrete inputs used by the closed theorems -/

/-- Baseline 4h candle of the malformed-input scenario. -/
def bH : Kline := ⟨0, 96, 97.5, 95.8, 97, 1⟩

/-- 4h candles: 25 candles in a flat-then-breakout shape, with candle 2
malformed (`high = 96.2 < 96.4 = low`); the last three candles rally,
leaving a bullish FVG `[98, 100.6]` and a 3.98% deviation above the SMA20
with RSI 100. -/
def c9h4 : List Kline :=
  [bH, bH, ⟨0, 96.5, 96.2, 96.4, 96.5, 1⟩, bH, bH, bH, bH, bH, bH, bH,
   bH, bH, bH, bH, bH, bH, bH, bH, bH, bH,
   bH, bH, ⟨0, 97, 98, 96.8, 97.8, 1⟩, ⟨0, 98, 98.8, 97.9, 98.5, 1⟩,
   ⟨0, 100.8, 101.5, 100.6, 101.2, 1⟩]

/-- Baseline 15m candle. -/
def bM : Kline := ⟨0, 99.3, 99.9, 99, 99.5, 1⟩

/-- 15m candles: swing highs 100.2/100.3, swing lows 98.7/98.6 (falling, so
no ChoCH), a sell-side sweep candle at index 18 under the 98.6 pool, a
final bullish BOS candle closing 100.5 above the 100.2 swing high, and a
final-triple FVG `[99.7, 100.2]`. -/
def c9m15 : List Kline :=
  [bM, bM, bM, bM, ⟨0, 99.3, 99.9, 98.7, 99.5, 1⟩,
   ⟨0, 99.4, 100.2, 99, 99.8, 1⟩, bM, bM, bM, bM,
   bM, ⟨0, 99.3, 99.9, 98.6, 99.5, 1⟩, ⟨0, 99.4, 100.3, 99, 99.8, 1⟩, bM, bM,
   bM, bM, ⟨0, 99.2, 99.7, 99, 99.6, 1⟩, ⟨0, 99.3, 99.5, 98, 99.4, 1⟩,
   ⟨0, 100.25, 100.7, 100.2, 100.5, 1⟩]

/-- Baseline 1m candle. -/
def bL : Kline := ⟨0, 99.4, 100, 99, 99.6, 1⟩

/-- 1m candles: rising swing lows 98.2/98.5 (bullish ChoCH), a
high-one/pullback/high-two pattern in the last 10 candles (entry 100.1,
stop 98.4015), non-ranging width, and a final close 100.0 inside the 15m
FVG. -/
def c9m1 : List Kline :=
  [bL, bL, bL, bL, ⟨0, 99.4, 100, 98.2, 99.6, 1⟩,
   bL, ⟨0, 99.4, 100.2, 99, 99.6, 1⟩, bL, bL, bL,
   bL, ⟨0, 99.5, 100.3, 99, 99.9, 1⟩, ⟨0, 99.3, 99.8, 98.5, 99.5, 1⟩, bL, bL,
   bL, bL, bL, bL, ⟨0, 99.7, 100.3, 99.5, 100, 1⟩]

/-- The complete multi-timeframe input: passes every gate and filter of
`scanSymbolMTF` with every score bonus, while its 4h series contains a
candle with `high < low`. -/
def c9data : MtfData := ⟨c9h4, c9m15, c9m1⟩

/-- The scan result of the malformed-but-signal-producing input. -/
def c9scan : ScanResult := scanSymbolMTF "BTC_USDT" (some c9data) none [] 0

/-- Baseline candle for the six-swing-high input. -/
def bP : Kline := ⟨0, 98, 100, 95, 99, 1⟩

/-- Peak candle (high 105) for the six-swing-high input. -/
def pk : Kline := ⟨0, 98, 105, 95, 99, 1⟩

/-- 30 candles with exactly 6 swing highs (lookback 3) at indices
3, 7, 11, 15, 19, 23 and no swing lows. -/
def c3ks : List Kline :=
  [bP, bP, bP, pk, bP, bP, bP, pk, bP, bP,
   bP, pk, bP, bP, bP, pk, bP, bP, bP, pk,
   bP, bP, bP, pk, bP, bP, bP, bP, bP, bP]

/-- A 10-candle window whose last 8 candles span only 0.45/99.725 ≈ 0.45%
(range < 1.5% of the midpoint) yet reach a full high-two pattern; only one
high touches the window maximum, so the documented ranging filter does not
fire. -/
def c4ks : List Kline :=
  [⟨0, 99.6, 99.9, 99.55, 99.7, 1⟩,
   ⟨0, 99.6, 100, 99.55, 99.8, 1⟩,
   ⟨0, 99.55, 99.6, 99.5, 99.55, 1⟩,
   ⟨0, 99.6, 99.95, 99.55, 99.9, 1⟩,
   ⟨0, 99.6, 99.7, 99.55, 99.65, 1⟩,
   ⟨0, 99.6, 99.7, 99.55, 99.65, 1⟩,
   ⟨0, 99.6, 99.7, 99.55, 99.65, 1⟩,
   ⟨0, 99.6, 99.7, 99.55, 99.65, 1⟩,
   ⟨0, 99.6, 99.7, 99.55, 99.65, 1⟩,
   ⟨0, 99.6, 99.7, 99.55, 99.65, 1⟩]

/-- A flat 10-candle window on which both ranging-filter variants fire. -/
def c4flat : List Kline :=
  List.replicate 10 ⟨0, 99.95, 100, 99.9, 99.95, 1⟩

/-- Baseline candle of the internal-BOS input (all lows equal, so no swing
lows and hence no ChoCH). -/
def bQ : Kline := ⟨0, 100.3, 100.8, 99, 100.5, 1⟩

/-- 20 candles whose last 10 contain two internal swing highs 101/101.2
and whose final close 101.1 breaks the second-to-last internal high —
a bullish internal BOS with no ChoCH. -/
def c7ks : List Kline :=
  [bQ, bQ, bQ, bQ, bQ, bQ, bQ, bQ, bQ, bQ,
   bQ, bQ, ⟨0, 100.3, 101, 99, 100.5, 1⟩, bQ, bQ,
   bQ, ⟨0, 100.3, 101.2, 99, 100.5, 1⟩, bQ, bQ, ⟨0, 100.9, 101.3, 99, 101.1, 1⟩]

/-- Candle with a given low (the other fields staying consistent). -/
def mkLow (l : ℚ) : Kline := ⟨0, l + 1/2, l + 1, l, l + 1/2, 1⟩

/-- Six candles with lows 100, 110, 109.5, 109.6, 110.2, 110.3: at 1%
tolerance the four 109.5–110.3 lows join the 110-anchored cluster (top
cluster 5 touches), while at 10% tolerance the 100-anchored cluster
absorbs 109.5 and 109.6 first, splitting them 3/3. -/
def c8ks : List Kline :=
  [mkLow 100, mkLow 110, mkLow (109+1/2), mkLow (109+6/10),
   mkLow (110+2/10), mkLow (110+3/10)]

/-- A two-candle window for the sweep-detector witness: the first candle
does not breach the pool at 100, the second sweeps it (low 99.5, body
0.05, lower wick 0.6, close 100.2). -/
def c5ks : List Kline :=
  [⟨0, 100.4, 100.6, 100.2, 100.5, 1⟩, ⟨0, 100.1, 100.3, 99.5, 100.15, 1⟩]

/-- A single high-priority sell-side pool at level 100. -/
def c5pools : List Pool := [⟨"SWING_LOW", 100, "high", 0⟩]

end TSMTF

namespace TSMTF

set_option maxRecDepth 1000000

attribute [local semireducible] Rat.mul Rat.inv Rat.add Rat.sub Rat.ofScientific

/-- C3: with six swing highs (lookback 3), `identifyLiquidityPools` tags
every swing-high pool `medium` — the `forEach` index over the 5-element
slice is compared against `length - 1 = 5` of the unsliced swing list, so
no pool gets `high` — while the claim (and the spec) say the most recently
formed swing pool is tagged `high` regardless of the swing count.  The
equal-level clusters do all carry `high`. -/
theorem C3_swing_pool_priority_bug :
    (findSwingPoints c3ks 3).1.length = 6 ∧
    ((identifyLiquidityPools c3ks).buySide.filter
      (fun p => p.type == "SWING_HIGH")).length = 5 ∧
    ((identifyLiquidityPools c3ks).buySide.filter
      (fun p => p.type == "SWING_HIGH")).all (fun p => p.priority == "medium") = true ∧
    ((identifyLiquidityPools c3ks).buySide.filter
      (fun p => p.type == "EQUAL_HIGH")).length = 2 ∧
    ((identifyLiquidityPools c3ks).buySide.filter
      (fun p => p.type == "EQUAL_HIGH")).all (fun p => p.priority == "high") = true := by
  refine ⟨by decide, by decide, by decide, by decide, by decide⟩

/-- C7: on `c7ks` the execution tier detects a bullish internal BOS
(`BULLISH_INTERNAL_BOS`) and no ChoCH, yet the documented copy of
`analyzeLTF` — which compares the type against `BULLISH_BOS`, a constant
`detectInternalBOS` never emits — reports direction `SHORT`; the condensed
backend copy reports `LONG` as the claim states. -/
theorem C7_internal_bos_type_bug :
    detectInternalBOS c7ks = some ⟨"BULLISH_INTERNAL_BOS", 101⟩ ∧
    detectChoCH (findSwingPoints c7ks 2).1 (findSwingPoints c7ks 2).2 = none ∧
    (analyzeLTFP1 c7ks "LONG" "LONG" []).direction = "SHORT" ∧
    (analyzeLTF c7ks "LONG" "LONG" []).direction = "LONG" := by
  refine ⟨by decide, by decide, by decide, by decide⟩

/-- C9: `c9data` contains a candle violating the basic invariant
(`high = 96.2 < 96.4 = low` at 4h index 2) — `InputValidator.validateKlines`
rejects it — yet `scanSymbolMTF`, which never invokes the validator,
computes on the malformed data and returns an unblocked result carrying a
signal. -/
theorem C9_malformed_input_produces_signal :
    (kget c9h4 2).high < (kget c9h4 2).low ∧
    validateKlines c9h4 = .error "Kline[2] high < low" ∧
    c9scan.signal.isSome = true ∧
    c9scan.blocked = false ∧
    (c9scan.signal.map (fun s => s.direction)) = some "LONG" := by
  refine ⟨by decide, by rfl, by decide, by decide, by decide⟩

/-- C2 counterexample: the signal produced by `scanSymbolMTF` on `c9data`
carries final score 110 — base 70 plus all five bonuses and no degradation
penalty — so the claimed clamp of the final score to `[0, 100]` is false. -/
theorem C2_score_counterexample :
    (c9scan.signal.map Signal.score) = some 110 ∧ ¬ ((110 : ℚ) ≤ 100) := by
  refine ⟨by decide, by norm_num⟩

/-- C4 counterexample: the last 8 candles of `c4ks` span less than 1.5% of
their midpoint, yet the documented copy of `countHighs` returns a *valid*
`HIGH_TWO` (its ranging filter additionally demands two touches of each
extreme, and only one high touches the maximum here), contradicting the
claim that such a window always pauses with `PRICE_RANGING`. -/
theorem C4_ranging_counterexample :
    (((takeLast c4ks 8).map (·.high)).max?.getD 0 -
        ((takeLast c4ks 8).map (·.low)).min?.getD 0) /
      ((((takeLast c4ks 8).map (·.high)).max?.getD 0 +
        ((takeLast c4ks 8).map (·.low)).min?.getD 0) / 2) * 100 < 3/2 ∧
    (countHighsP1 c4ks).valid = true ∧
    (countHighsP1 c4ks).type = "HIGH_TWO" ∧
    (countHighsP1 c4ks).countingPaused = false := by
  refine ⟨by decide, by decide, by decide, by decide⟩

/-- C8 counterexample: on `c8ks` (type `low`), raising `tolerancePercent`
from 1 to 10 drops the top cluster's touch count from 5 to 3 — the larger
tolerance lets the earlier 100-anchored cluster steal two members from the
110-anchored cluster — so the claimed monotonicity is false. -/
theorem C8_tolerance_counterexample :
    ((findEqualLevels c8ks "low" 1).headD ⟨0, 0, [], 0⟩).touches = 5 ∧
    ((findEqualLevels c8ks "low" 10).headD ⟨0, 0, [], 0⟩).touches = 3 ∧
    (1 : ℚ) < 10 := by
  refine ⟨by decide, by decide, by norm_num⟩

end TSMTF

namespace TSMTF

attribute [local semireducible] Rat.mul Rat.inv Rat.add Rat.sub Rat.ofScientific

set_option maxRecDepth 1000000

/-- C6: strong-close confirmation reads only the final candle of the
sequence (first conjunct: its value is unchanged by replacing everything
before the last candle), and `detectBOS` flags that same final candle as
the breaker — on `c9m15` the BOS broken level 100.2 is broken by the last
candle's own close 100.5, and `confirmStrongClose` returns `true` by
evaluating that breaking candle itself (close beyond the level, close
above open).  No candle *following* the breaker exists, so the claimed
"next candle" confirmation is not what the code computes. -/
theorem C6_strong_close_examines_breaking_candle :
    (∀ (a : Kline) (l1 : List Kline) (b : Kline) (l2 : List Kline) (k : Kline) (bos : Bos),
        confirmStrongClose ((a :: l1) ++ [k]) bos =
        confirmStrongClose ((b :: l2) ++ [k]) bos) ∧
    detectBOS c9m15 (findSwingPoints c9m15 3).1 (findSwingPoints c9m15 3).2 =
      some ⟨"BULLISH_BOS", 100.2⟩ ∧
    (100.2 : ℚ) < (klast c9m15).close ∧
    confirmStrongClose c9m15 ⟨"BULLISH_BOS", 100.2⟩ = true := by
  refine ⟨?_, by rfl, by decide, by decide⟩
  intro a l1 b l2 k bos
  have hlast : ∀ (c : Kline) (l : List Kline), klast ((c :: l) ++ [k]) = k := by
    intro c l
    unfold klast
    rw [List.getLastD_eq_getLast?, List.getLast?_concat]
    rfl
  have hlen : ∀ (c : Kline) (l : List Kline), ¬ ((c :: l) ++ [k]).length < 2 := by
    intro c l
    simp [List.length_append]
  simp only [confirmStrongClose, hlast, hlen, if_false]

/-- C1: for all tier results, the alignment gate's block reason is the
reason of the *first* failing check in the fixed §4.5 order (even when
several fail), `passed` holds iff all eight checks clear, and `blocked`
holds iff one of the first seven checks fails — the final entry-zone check
clears `passed` but never sets `blocked`; consequently
`passed = true ∧ blocked = false` iff every check clears. -/
theorem C1_gate_first_failing_check (htf : HTFResult) (mtf : MTFResult) (ltf : LTFResult) :
    (checkAlignmentGate htf mtf ltf).blockReason =
      firstFailReason (gateChecks htf mtf ltf) ∧
    ((checkAlignmentGate htf mtf ltf).passed = true ↔
      (gateChecks htf mtf ltf).all (·.1) = true) ∧
    ((checkAlignmentGate htf mtf ltf).blocked = true ↔
      ((gateChecks htf mtf ltf).take 7).all (·.1) = false) ∧
    ((checkAlignmentGate htf mtf ltf).passed = true ∧
        (checkAlignmentGate htf mtf ltf).blocked = false ↔
      (gateChecks htf mtf ltf).all (·.1) = true) := by
  unfold checkAlignmentGate gateChecks firstFailReason strictMode
  by_cases h1 : htf.valid <;> by_cases h2 : mtf.valid <;> by_cases h3 : ltf.valid <;>
    by_cases h4 : htf.direction = "NEUTRAL" <;> by_cases h5 : mtf.aligned <;>
    by_cases h6 : mtf.inHTFPOI <;> by_cases h7 : ltf.aligned <;>
    by_cases h8 : ltf.inEntryZone <;>
    simp [h1, h2, h3, h4, h5, h6, h7, h8]

/-- When the ranging filter in force fires, the high-counter pauses. -/
lemma countHighsWith_paused (rg : List Kline → Bool) (ks : List Kline)
    (h : rg ks = true) :
    (countHighsWith rg ks).valid = false ∧
    (countHighsWith rg ks).countingPaused = true ∧
    (countHighsWith rg ks).pauseReason = some "PRICE_RANGING" := by
  unfold countHighsWith
  rw [h]
  simp

/-- When the ranging filter in force fires, the low-counter pauses. -/
lemma countLowsWith_paused (rg : List Kline → Bool) (ks : List Kline)
    (h : rg ks = true) :
    (countLowsWith rg ks).valid = false ∧
    (countLowsWith rg ks).countingPaused = true ∧
    (countLowsWith rg ks).pauseReason = some "PRICE_RANGING" := by
  unfold countLowsWith
  rw [h]
  simp

/-- C4 (amended): the ranging filter of the documented copy fires only
when, besides the range being under 1.5% of the midpoint, at least two of
the last 8 highs lie within 0.2% of the window maximum and at least two
lows within 0.2% of the window minimum — and whenever it does fire
(`checkRangingP1`), both counters return `valid = false`,
`countingPaused = true`, `pauseReason = PRICE_RANGING`, never a valid
`HIGH_TWO`/`LOW_TWO`.  In the condensed backend copy (`checkRanging`) the
sub-1.5% range alone forces the pause, as the original claim states. -/
theorem C4_ranging_pause (ks : List Kline) :
    (checkRangingP1 ks = true →
      (countHighsP1 ks).valid = false ∧ (countHighsP1 ks).countingPaused = true ∧
      (countHighsP1 ks).pauseReason = some "PRICE_RANGING" ∧
      (countLowsP1 ks).valid = false ∧ (countLowsP1 ks).countingPaused = true ∧
      (countLowsP1 ks).pauseReason = some "PRICE_RANGING") ∧
    (checkRanging ks = true →
      (countHighs ks).valid = false ∧ (countHighs ks).countingPaused = true ∧
      (countHighs ks).pauseReason = some "PRICE_RANGING" ∧
      (countLows ks).valid = false ∧ (countLows ks).countingPaused = true ∧
      (countLows ks).pauseReason = some "PRICE_RANGING") := by
  constructor
  · intro h
    obtain ⟨a1, a2, a3⟩ := countHighsWith_paused checkRangingP1 ks h
    obtain ⟨b1, b2, b3⟩ := countLowsWith_paused checkRangingP1 ks h
    exact ⟨a1, a2, a3, b1, b2, b3⟩
  · intro h
    obtain ⟨a1, a2, a3⟩ := countHighsWith_paused checkRanging ks h
    obtain ⟨b1, b2, b3⟩ := countLowsWith_paused checkRanging ks h
    exact ⟨a1, a2, a3, b1, b2, b3⟩

/-- Witness for C4: on a flat window both ranging variants fire and both
counters report the pause. -/
theorem C4_ranging_pause_witness :
    (countHighsP1 c4flat).countingPaused = true ∧
    (countLows c4flat).countingPaused = true := by
  exact ⟨((C4_ranging_pause c4flat).1 (by decide)).2.1,
         ((C4_ranging_pause c4flat).2 (by decide)).2.2.2.2.1⟩


/-- Bounds of the degradation-filter output for a base score in
`[70, 110]`: every penalty is nonnegative and the result is floored at 0,
so the adjusted score stays in `[0, 110]`. -/
lemma degradationFilter_bounds (b e : ℚ) (ch : Option Choch) (ks : List Kline)
    (t : Option Ticker) (hb : 70 ≤ b) (hb' : b ≤ 110) :
    0 ≤ (degradationFilter b e ch ks t).adjustedScore ∧
    (degradationFilter b e ch ks t).adjustedScore ≤ 110 := by
  unfold degradationFilter jsOr
  have hb0 : ¬ (b = 0) := by intro h; rw [h] at hb; norm_num at hb
  rcases t with _ | t <;> rcases ch with _ | c <;>
    simp only [hb0, if_false, List.map_append, List.sum_append] <;>
    split_ifs <;>
    simp only [List.map_cons, List.map_nil, List.sum_cons, List.sum_nil] <;>
    refine ⟨le_max_left _ _, max_le (by norm_num) ?_⟩ <;>
    try linarith
  all_goals
    have hd : (0:ℚ) < |e - (klast ks).close| / (klast ks).close := by linarith
  all_goals
    have h15 : (0:ℚ) ≤ 15 ⊓ (|e - (klast ks).close| / (klast ks).close * 100) :=
      le_min (by norm_num) (by nlinarith)
  all_goals linarith


/-- C2 (amended): every signal produced by the scoring stage has a final
score in `[0, 110]` — base 70 plus the five bonuses (at most +40) minus
the nonnegative degradation penalties, floored at 0 but *not* capped at
100 — and the letter rating uses the inclusive thresholds: `score ≥ 85 ⇒
S`, `70 ≤ score < 85 ⇒ A`, `55 ≤ score < 70 ⇒ B`, otherwise `C`. -/
theorem C2_score_bounds_rating (symbol : String) (a : MtfAnalysis)
    (sweepResult : RLSResult) (hiloResult : HiLo) (ticker : Option Ticker)
    (d : MtfData) :
    0 ≤ (generateMTFSignal symbol a sweepResult hiloResult ticker d).score ∧
    (generateMTFSignal symbol a sweepResult hiloResult ticker d).score ≤ 110 ∧
    (85 ≤ (generateMTFSignal symbol a sweepResult hiloResult ticker d).score →
      (generateMTFSignal symbol a sweepResult hiloResult ticker d).rating = "S") ∧
    (70 ≤ (generateMTFSignal symbol a sweepResult hiloResult ticker d).score →
      (generateMTFSignal symbol a sweepResult hiloResult ticker d).score < 85 →
      (generateMTFSignal symbol a sweepResult hiloResult ticker d).rating = "A") ∧
    (55 ≤ (generateMTFSignal symbol a sweepResult hiloResult ticker d).score →
      (generateMTFSignal symbol a sweepResult hiloResult ticker d).score < 70 →
      (generateMTFSignal symbol a sweepResult hiloResult ticker d).rating = "B") ∧
    ((generateMTFSignal symbol a sweepResult hiloResult ticker d).score < 55 →
      (generateMTFSignal symbol a sweepResult hiloResult ticker d).rating = "C") := by
  unfold generateMTFSignal
  dsimp only
  have hb70 : (70:ℚ) ≤ 70 + (if a.aligned = true then (10:ℚ) else 0)
      + (if sweepResult.passed = true then (10:ℚ) else 0)
      + (if hiloResult.valid = true then (10:ℚ) else 0)
      + (if a.mtf.strongCloseConfirmed = true then (5:ℚ) else 0)
      + (if a.htf.trend.confidence = "high" then (5:ℚ) else 0) := by
    split_ifs <;> norm_num
  have hb110 : 70 + (if a.aligned = true then (10:ℚ) else 0)
      + (if sweepResult.passed = true then (10:ℚ) else 0)
      + (if hiloResult.valid = true then (10:ℚ) else 0)
      + (if a.mtf.strongCloseConfirmed = true then (5:ℚ) else 0)
      + (if a.htf.trend.confidence = "high" then (5:ℚ) else 0) ≤ 110 := by
    split_ifs <;> norm_num
  refine ⟨(degradationFilter_bounds _ _ _ _ _ hb70 hb110).1,
          (degradationFilter_bounds _ _ _ _ _ hb70 hb110).2, ?_, ?_, ?_, ?_⟩
  · intro h
    rw [if_pos h]
  · intro h1 h2
    rw [if_neg (not_le.mpr h2), if_pos h1]
  · intro h1 h2
    rw [if_neg (by linarith), if_neg (not_le.mpr h2), if_pos h1]
  · intro h
    rw [if_neg (by linarith), if_neg (by linarith), if_neg (not_le.mpr h)]

/-- Witness for C2: the `c9data` pipeline signal has a nonnegative score
and, its score being 110 ≥ 85, rating `S`. -/
theorem C2_score_bounds_rating_witness :
    (0:ℚ) ≤ (generateMTFSignal "BTC_USDT" (analyzeMultiTimeframe c9data)
      (requireLiquiditySweep c9m15 "LONG" true) (detectHiLoTwo c9m1 "LONG")
      none c9data).score ∧
    (generateMTFSignal "BTC_USDT" (analyzeMultiTimeframe c9data)
      (requireLiquiditySweep c9m15 "LONG" true) (detectHiLoTwo c9m1 "LONG")
      none c9data).rating = "S" := by
  refine ⟨(C2_score_bounds_rating "BTC_USDT" (analyzeMultiTimeframe c9data)
      (requireLiquiditySweep c9m15 "LONG" true) (detectHiLoTwo c9m1 "LONG")
      none c9data).1,
    (C2_score_bounds_rating "BTC_USDT" (analyzeMultiTimeframe c9data)
      (requireLiquiditySweep c9m15 "LONG" true) (detectHiLoTwo c9m1 "LONG")
      none c9data).2.2.1 (by decide)⟩


/-- The sell-side scanning loop returns the chronologically first candle
satisfying all four sweep conditions, and nothing otherwise. -/
lemma sellSweepGo_spec (full : List Kline) (t : Pool) :
    ∀ (ks : List Kline) (i0 : ℕ),
      (∀ i, (sellSweepGo full t i0 ks).sweepIndex = some i →
        ∃ j, i = i0 + j ∧ j < ks.length ∧ sellSweepCond t.level (kget ks j) = true ∧
          ∀ m, m < j → sellSweepCond t.level (kget ks m) = false) ∧
      ((sellSweepGo full t i0 ks).detected = true ↔
        ks.any (sellSweepCond t.level) = true) ∧
      ((sellSweepGo full t i0 ks).detected = false →
        ∀ j, j < ks.length → sellSweepCond t.level (kget ks j) = false) := by
  intro ks
  induction ks with
  | nil =>
    intro i0
    refine ⟨?_, ?_, ?_⟩ <;> simp [sellSweepGo]
  | cons k rest ih =>
    intro i0
    by_cases hc : sellSweepCond t.level k = true
    · refine ⟨?_, ?_, ?_⟩
      · intro i hi
        simp only [sellSweepGo, hc, if_true, Option.some.injEq] at hi
        exact ⟨0, by omega, by simp, by simpa [kget] using hc, by omega⟩
      · simp [sellSweepGo, hc]
      · intro hdet
        simp [sellSweepGo, hc] at hdet
    · have hrec := ih (i0 + 1)
      have hstep : sellSweepGo full t i0 (k :: rest) = sellSweepGo full t (i0 + 1) rest := by
        simp [sellSweepGo, hc]
      refine ⟨?_, ?_, ?_⟩
      · intro i hi
        rw [hstep] at hi
        obtain ⟨j, hj1, hj2, hj3, hj4⟩ := hrec.1 i hi
        refine ⟨j + 1, by omega, by simp; omega, by simpa [kget] using hj3, ?_⟩
        intro m hm
        cases m with
        | zero => simpa [kget] using hc
        | succ m' =>
          have := hj4 m' (by omega)
          simpa [kget] using this
      · rw [hstep]
        rw [hrec.2.1]
        simp [List.any_cons, hc]
      · intro hdet
        rw [hstep] at hdet
        intro j hj
        cases j with
        | zero => simpa [kget] using hc
        | succ j' =>
          have := hrec.2.2 hdet j' (by simp at hj; omega)
          simpa [kget] using this


/-- The buy-side scanning loop (mirror of `sellSweepGo_spec`). -/
lemma buySweepGo_spec (full : List Kline) (t : Pool) :
    ∀ (ks : List Kline) (i0 : ℕ),
      (∀ i, (buySweepGo full t i0 ks).sweepIndex = some i →
        ∃ j, i = i0 + j ∧ j < ks.length ∧ buySweepCond t.level (kget ks j) = true ∧
          ∀ m, m < j → buySweepCond t.level (kget ks m) = false) ∧
      ((buySweepGo full t i0 ks).detected = true ↔
        ks.any (buySweepCond t.level) = true) ∧
      ((buySweepGo full t i0 ks).detected = false →
        ∀ j, j < ks.length → buySweepCond t.level (kget ks j) = false) := by
  intro ks
  induction ks with
  | nil =>
    intro i0
    refine ⟨?_, ?_, ?_⟩ <;> simp [buySweepGo]
  | cons k rest ih =>
    intro i0
    by_cases hc : buySweepCond t.level k = true
    · refine ⟨?_, ?_, ?_⟩
      · intro i hi
        simp only [buySweepGo, hc, if_true, Option.some.injEq] at hi
        exact ⟨0, by omega, by simp, by simpa [kget] using hc, by omega⟩
      · simp [buySweepGo, hc]
      · intro hdet
        simp [buySweepGo, hc] at hdet
    · have hrec := ih (i0 + 1)
      have hstep : buySweepGo full t i0 (k :: rest) = buySweepGo full t (i0 + 1) rest := by
        simp [buySweepGo, hc]
      refine ⟨?_, ?_, ?_⟩
      · intro i hi
        rw [hstep] at hi
        obtain ⟨j, hj1, hj2, hj3, hj4⟩ := hrec.1 i hi
        refine ⟨j + 1, by omega, by simp; omega, by simpa [kget] using hj3, ?_⟩
        intro m hm
        cases m with
        | zero => simpa [kget] using hc
        | succ m' =>
          have := hj4 m' (by omega)
          simpa [kget] using this
      · rw [hstep]
        rw [hrec.2.1]
        simp [List.any_cons, hc]
      · intro hdet
        rw [hstep] at hdet
        intro j hj
        cases j with
        | zero => simpa [kget] using hc
        | succ j' =>
          have := hrec.2.2 hdet j' (by simp at hj; omega)
          simpa [kget] using this


/-- C5: the pool-based sweep detector scans only the last 5 candles
(`detectLiquiditySweep` slices before delegating); on a nonempty pool list
the reported sweep candle is the chronologically *first* candle of the
window satisfying all four conditions — level breached, nonzero body with
breaching wick strictly greater than 2.0× the body, close reclaimed across
the level, and sweep depth at least 0.1% of the level — and `detected`
holds iff some candle satisfies them; a candle whose wick equals exactly
2.0× its body, or whose sweep percent is strictly below 0.1, never
satisfies the conditions, on either side. -/
theorem C5_sweep_detector_spec :
    (∀ (ks : List Kline) (pools : Pools),
        detectLiquiditySweep ks pools "LONG" =
          detectSellSideSweep (takeLast ks 5) pools.sellSide) ∧
    (∀ (ks : List Kline) (pools : Pools),
        detectLiquiditySweep ks pools "SHORT" =
          detectBuySideSweep (takeLast ks 5) pools.buySide) ∧
    (∀ (ks : List Kline) (pools : List Pool), pools ≠ [] →
        (∀ i, (detectSellSideSweep ks pools).sweepIndex = some i →
          i < ks.length ∧ sellSweepCond (targetPoolOf pools).level (kget ks i) = true ∧
            ∀ m, m < i → sellSweepCond (targetPoolOf pools).level (kget ks m) = false) ∧
        ((detectSellSideSweep ks pools).detected = true ↔
          ks.any (sellSweepCond (targetPoolOf pools).level) = true)) ∧
    (∀ (ks : List Kline) (pools : List Pool), pools ≠ [] →
        (∀ i, (detectBuySideSweep ks pools).sweepIndex = some i →
          i < ks.length ∧ buySweepCond (targetPoolOf pools).level (kget ks i) = true ∧
            ∀ m, m < i → buySweepCond (targetPoolOf pools).level (kget ks m) = false) ∧
        ((detectBuySideSweep ks pools).detected = true ↔
          ks.any (buySweepCond (targetPoolOf pools).level) = true)) ∧
    (∀ (level : ℚ) (k : Kline), min k.open_ k.close - k.low = |k.close - k.open_| * 2 →
        sellSweepCond level k = false) ∧
    (∀ (level : ℚ) (k : Kline), (level - k.low) / level * 100 < 1/10 →
        sellSweepCond level k = false) ∧
    (∀ (level : ℚ) (k : Kline), k.high - max k.open_ k.close = |k.close - k.open_| * 2 →
        buySweepCond level k = false) ∧
    (∀ (level : ℚ) (k : Kline), (k.high - level) / level * 100 < 1/10 →
        buySweepCond level k = false) := by
  refine ⟨fun ks pools => rfl, fun ks pools => rfl, ?_, ?_, ?_, ?_, ?_, ?_⟩
  · intro ks pools hp
    obtain ⟨p, ps, rfl⟩ := List.exists_cons_of_ne_nil hp
    have h := sellSweepGo_spec ks (targetPoolOf (p :: ps)) ks 0
    refine ⟨?_, ?_⟩
    · intro i hi
      obtain ⟨j, hj1, hj2, hj3, hj4⟩ := h.1 i (by simpa [detectSellSideSweep] using hi)
      have : i = j := by omega
      subst this
      exact ⟨hj2, hj3, hj4⟩
    · simpa [detectSellSideSweep] using h.2.1
  · intro ks pools hp
    obtain ⟨p, ps, rfl⟩ := List.exists_cons_of_ne_nil hp
    have h := buySweepGo_spec ks (targetPoolOf (p :: ps)) ks 0
    refine ⟨?_, ?_⟩
    · intro i hi
      obtain ⟨j, hj1, hj2, hj3, hj4⟩ := h.1 i (by simpa [detectBuySideSweep] using hi)
      have : i = j := by omega
      subst this
      exact ⟨hj2, hj3, hj4⟩
    · simpa [detectBuySideSweep] using h.2.1
  · intro level k h
    unfold sellSweepCond
    rw [h]
    simp
  · intro level k h
    unfold sellSweepCond
    have : decide ((1/10 : ℚ) ≤ (level - k.low) / level * 100) = false :=
      decide_eq_false (not_le.mpr h)
    simp only [this, Bool.and_false]
  · intro level k h
    unfold buySweepCond
    rw [h]
    simp
  · intro level k h
    unfold buySweepCond
    have : decide ((1/10 : ℚ) ≤ (k.high - level) / level * 100) = false :=
      decide_eq_false (not_le.mpr h)
    simp only [this, Bool.and_false]

/-- Witness for C5: on the concrete two-candle window `c5ks` with the
single pool at level 100, the detector reports index 1; by the theorem the
candle at index 1 satisfies the sweep conditions and the candle before it
does not. -/
theorem C5_sweep_detector_spec_witness :
    (1 < c5ks.length ∧
      sellSweepCond (targetPoolOf c5pools).level (kget c5ks 1) = true ∧
      ∀ m, m < 1 → sellSweepCond (targetPoolOf c5pools).level (kget c5ks m) = false) ∧
    (detectSellSideSweep c5ks c5pools).detected = true := by
  have h := C5_sweep_detector_spec.2.2.1 c5ks c5pools (by decide)
  exact ⟨h.1 1 (by decide), h.2.mpr (by decide)⟩

/-- C8 (amended): `findEqualLevels` returns only clusters with at least 2
touches, in an order that is pairwise sorted by touch count descending
with ties kept in cluster-creation (formation) order — but increasing
`tolerancePercent` *can* decrease the top cluster's touch count (see the
counterexample). -/
theorem C8_equal_levels_sorted (ks : List Kline) (type : String) (tol : ℚ) :
    (∀ l ∈ findEqualLevels ks type tol, 2 ≤ l.touches) ∧
    (findEqualLevels ks type tol).Pairwise levelLE := by
  constructor
  · intro l hl
    rw [findEqualLevels, List.mem_insertionSort] at hl
    exact of_decide_eq_true (List.mem_filter.mp hl).2
  · exact List.sorted_insertionSort levelLE _

/-- Witness for C8: the top cluster returned on `c8ks` indeed has at least
2 touches. -/
theorem C8_equal_levels_sorted_witness :
    2 ≤ ((findEqualLevels c8ks "low" 1).headD ⟨0, 0, [], 0⟩).touches :=
  (C8_equal_levels_sorted c8ks "low" 1).1 _ (by decide)

/-- C10: `scanSymbolMTF` is total — an erroring pipeline is caught and
returned as a blocked result with `ANALYSIS_ERROR` and the message, a
successful pipeline is returned as-is, every result carries a signal or is
blocked — and `scanAllSymbolsMTF` classifies every symbol into exactly one
of its three lists, so one symbol's failure never aborts the batch. -/
theorem C10_scan_error_handling :
    (∀ (symbol : String) (data : Option MtfData) (ticker : Option Ticker)
        (hist : List PastSignal) (now : Int) (m : String),
        scanPipeline symbol data ticker hist now = .error m →
        scanSymbolMTF symbol data ticker hist now =
          { symbol := symbol, blocked := true, blockReason := some "ANALYSIS_ERROR",
            error := some m }) ∧
    (∀ (symbol : String) (data : Option MtfData) (ticker : Option Ticker)
        (hist : List PastSignal) (now : Int) (r : ScanResult),
        scanPipeline symbol data ticker hist now = .ok r →
        scanSymbolMTF symbol data ticker hist now = r) ∧
    (∀ (symbol : String) (data : Option MtfData) (ticker : Option Ticker)
        (hist : List PastSignal) (now : Int),
        (scanSymbolMTF symbol data ticker hist now).signal.isSome = true ∨
        (scanSymbolMTF symbol data ticker hist now).blocked = true) ∧
    (∀ (inputs : List (String × Option MtfData)) (tickers : String → Option Ticker)
        (hist : List PastSignal) (now : Int),
        (scanAllSymbolsMTF inputs tickers hist now).signals.length +
        (scanAllSymbolsMTF inputs tickers hist now).filtered.length +
        (scanAllSymbolsMTF inputs tickers hist now).errors.length = inputs.length) := by
  have hok : ∀ (symbol : String) (d : MtfData) (ticker : Option Ticker)
      (hist : List PastSignal) (now : Int) (r : ScanResult),
      scanPipeline symbol (some d) ticker hist now = .ok r →
      r.signal.isSome = true ∨ r.blocked = true := by
    intro symbol d ticker hist now r h
    unfold scanPipeline at h
    dsimp only at h
    split at h
    · injection h with h2; subst h2; right; rfl
    · split at h
      · injection h with h2; subst h2; right; rfl
      · split at h
        · injection h with h2; subst h2; right; rfl
        · split at h
          · injection h with h2; subst h2; right; rfl
          · split at h
            · injection h with h2; subst h2; right; rfl
            · injection h with h2; subst h2; left; rfl
  have hone : ∀ (symbol : String) (data : Option MtfData) (ticker : Option Ticker)
      (hist : List PastSignal) (now : Int),
      (scanSymbolMTF symbol data ticker hist now).signal.isSome = true ∨
      (scanSymbolMTF symbol data ticker hist now).blocked = true := by
    intro symbol data ticker hist now
    rcases data with _ | d
    · right; rfl
    · rcases hp : scanPipeline symbol (some d) ticker hist now with m | r
      · right
        unfold scanSymbolMTF
        rw [hp]
      · have := hok symbol d ticker hist now r hp
        unfold scanSymbolMTF
        rw [hp]
        exact this
  refine ⟨?_, ?_, hone, ?_⟩
  · intro symbol data ticker hist now m h
    unfold scanSymbolMTF
    rw [h]
  · intro symbol data ticker hist now r h
    unfold scanSymbolMTF
    rw [h]
  · intro inputs tickers hist now
    unfold scanAllSymbolsMTF
    have step : ∀ (acc : BatchResult) (sd : String × Option MtfData),
        (scanStep tickers hist now acc sd).signals.length +
        (scanStep tickers hist now acc sd).filtered.length +
        (scanStep tickers hist now acc sd).errors.length =
        acc.signals.length + acc.filtered.length + acc.errors.length + 1 := by
      intro acc sd
      unfold scanStep
      rcases hsb : (scanSymbolMTF sd.1 sd.2 (tickers sd.1) hist now).signal with _ | sig
      · have hb : (scanSymbolMTF sd.1 sd.2 (tickers sd.1) hist now).blocked = true := by
          rcases hone sd.1 sd.2 (tickers sd.1) hist now with h | h
          · rw [hsb] at h
            simp at h
          · exact h
        simp [hsb, hb]
        omega
      · simp [hsb]
        omega
    suffices H : ∀ (l : List (String × Option MtfData)) (acc : BatchResult),
        (List.foldl (scanStep tickers hist now) acc l).signals.length +
        (List.foldl (scanStep tickers hist now) acc l).filtered.length +
        (List.foldl (scanStep tickers hist now) acc l).errors.length =
        acc.signals.length + acc.filtered.length + acc.errors.length + l.length by
      have := H inputs ⟨[], [], []⟩
      simpa using this
    intro l
    induction l with
    | nil => intro acc; simp
    | cons x xs ih =>
      intro acc
      simp only [List.foldl_cons, List.length_cons]
      rw [ih (scanStep tickers hist now acc x), step acc x]
      omega

/-- Witness for C10: scanning raw data whose access would throw yields the
`ANALYSIS_ERROR` result rather than propagating the exception. -/
theorem C10_scan_error_handling_witness :
    scanSymbolMTF "FOO" none none [] 0 =
      { symbol := "FOO", blocked := true, blockReason := some "ANALYSIS_ERROR",
        error := some "Cannot read properties of undefined" } :=
  C10_scan_error_handling.1 "FOO" none none [] 0
    "Cannot read properties of undefined" rfl

end TSMTF
